import Mathlib

/-!
Verification of the conversation-to-stat-delta engine
(`src/services/stat_calculator.py`, class `StatCalculator`).

The Python code is shallowly embedded:
* JSON values decoded by `json.loads` become the inductive type `JValue`;
  `json.loads` itself is modelled by the executable parser `json_loads`
  (fuel-indexed recursive descent over the character list).
* Python exceptions relevant to the `try`/`except` block of
  `analyze_conversation` become the type `PyExn`; code that may raise is
  written in the `Except PyExn` monad.
* The text-generation oracle (the LangChain `chain.invoke` call) is an
  explicit function parameter `llm : String → String → String` taking the
  rendered system and human messages and returning the response content.
  Transport failures of the oracle are outside the model, exactly as the
  claims scope themselves to calls where the oracle returns text.
* Python `dict`s appearing in the code become ordered association lists
  with unique keys (the parser's `insertKV` maintains Python's
  first-insertion-position, last-value-wins semantics).
-/

/-- A decoded JSON value, as produced by Python's `json.loads`.
JSON numbers without fraction/exponent decode to Python `int` (`jint`);
numbers with a fraction or exponent decode to Python `float`, modelled
exactly as the decimal value `m * 10 ^ e` (`jfloat m e`).  This keeps
the one float observation the code makes — comparison with `0` — exact:
a finite decimal literal equals `0` iff its mantissa is `0`.  Python's
decoder also accepts, by default, the non-standard literals `NaN`,
`Infinity` and `-Infinity`, decoding them to the special floats `nan`
and `±inf`: `jnan` and `jinf` model those.  (Float overflow/underflow
at astronomically large exponents is not modelled.) -/
inductive JValue where
  | jnull : JValue
  | jbool (b : Bool) : JValue
  | jint (n : Int) : JValue
  | jfloat (m : Int) (e : Int) : JValue
  | jnan : JValue
  | jinf (neg : Bool) : JValue
  | jstr (s : String) : JValue
  | jarr (elems : List JValue) : JValue
  | jobj (fields : List (String × JValue)) : JValue
deriving Repr

/-- Python's `type(v).__name__` for a decoded JSON value. -/
def pyTypeName : JValue → String
  | .jnull => "NoneType"
  | .jbool _ => "bool"
  | .jint _ => "int"
  | .jfloat _ _ => "float"
  | .jnan => "float"
  | .jinf _ => "float"
  | .jstr _ => "str"
  | .jarr _ => "list"
  | .jobj _ => "dict"

/-- The exceptions that can arise inside the `try` block of
`analyze_conversation` after the oracle's response text is in hand.
`jsonDecodeError` and `keyError` are the two kinds named by its
`except (json.JSONDecodeError, KeyError)` clause; `attributeError` is
what Python raises when `.get` or `.items` is used on a non-`dict`. -/
inductive PyExn where
  | jsonDecodeError (msg : String) : PyExn
  | keyError (key : String) : PyExn
  | attributeError (msg : String) : PyExn
deriving Repr, DecidableEq

/-- Python dict semantics over the ordered association list: lookup of the
first (and only) binding of a key. -/
def lookupKV (fs : List (String × JValue)) (k : String) : Option JValue :=
  match fs with
  | [] => none
  | (k', v) :: rest => if k' == k then some v else lookupKV rest k

/-- Python dict insertion: an existing key keeps its position and gets the
new value, a new key is appended.  Used by the object parser, so decoded
objects always carry unique keys in first-occurrence order. -/
def insertKV (fs : List (String × JValue)) (k : String) (v : JValue) :
    List (String × JValue) :=
  match fs with
  | [] => [(k, v)]
  | (k', v') :: rest =>
      if k' == k then (k, v) :: rest else (k', v') :: insertKV rest k v

/-- JSON whitespace accepted by Python's decoder. -/
def isJsonWs (c : Char) : Bool :=
  c == ' ' || c == '\r' || c == '\n' || c == '\t'

/-- Drop leading JSON whitespace. -/
def skipWs : List Char → List Char
  | [] => []
  | c :: cs => if isJsonWs c then skipWs cs else c :: cs

/-- Numeric value of a hexadecimal digit, if it is one (by code point:
48–57 are the digits, 97–102 lowercase a–f, 65–70 uppercase A–F). -/
def hexVal (c : Char) : Option Nat :=
  let n := c.toNat
  if 48 ≤ n && n ≤ 57 then some (n - 48)
  else if 97 ≤ n && n ≤ 102 then some (n - 87)
  else if 65 ≤ n && n ≤ 70 then some (n - 55)
  else none

/-- Body of a JSON string after the opening quote: plain characters and
the standard escapes, ending at the closing quote.  Unescaped control
characters are rejected as in Python's strict mode.  (`\uXXXX` maps
through `Char.ofNat`; surrogate-pair recombination is not modelled.) -/
def parseStringRest (fuel : Nat) (cs : List Char) (acc : List Char) :
    Option (String × List Char) :=
  match fuel, cs with
  | 0, _ => none
  | _, [] => none
  | f + 1, c :: rest =>
    if c == '"' then some (String.mk acc.reverse, rest)
    else if c == '\\' then
      match rest with
      | [] => none
      | e :: rest2 =>
        if e == '"' then parseStringRest f rest2 ('"' :: acc)
        else if e == '\\' then parseStringRest f rest2 ('\\' :: acc)
        else if e == '/' then parseStringRest f rest2 ('/' :: acc)
        else if e == 'b' then parseStringRest f rest2 (Char.ofNat 8 :: acc)
        else if e == 'f' then parseStringRest f rest2 (Char.ofNat 12 :: acc)
        else if e == 'n' then parseStringRest f rest2 ('\n' :: acc)
        else if e == 'r' then parseStringRest f rest2 ('\r' :: acc)
        else if e == 't' then parseStringRest f rest2 ('\t' :: acc)
        else if e == 'u' then
          match rest2 with
          | h1 :: h2 :: h3 :: h4 :: rest3 =>
            match hexVal h1, hexVal h2, hexVal h3, hexVal h4 with
            | some a, some b, some c', some d =>
                parseStringRest f rest3
                  (Char.ofNat (((a * 16 + b) * 16 + c') * 16 + d) :: acc)
            | _, _, _, _ => none
          | _ => none
        else none
    else if c.toNat < 32 then none
    else parseStringRest f rest (c :: acc)

/-- Take a maximal run of decimal digits. -/
def takeDigits : List Char → (List Char × List Char)
  | [] => ([], [])
  | c :: cs =>
    if c.isDigit then
      let (ds, rest) := takeDigits cs
      (c :: ds, rest)
    else ([], c :: cs)

/-- Value of a digit run. -/
def digitsToNat (ds : List Char) : Nat :=
  ds.foldl (fun a c => a * 10 + (c.toNat - '0'.toNat)) 0

/-- A JSON number per Python's decoder regex
`(-?(?:0|[1-9]\d*))(\.\d+)?([eE][-+]?\d+)?`: an integer part (no leading
zeros), then an optional fraction and exponent.  Without fraction and
exponent the result is a Python `int`; otherwise a `float`, represented
as mantissa and decimal exponent. -/
def parseNumber (cs : List Char) : Option (JValue × List Char) :=
  let signSplit : Bool × List Char :=
    match cs with
    | '-' :: tl => (true, tl)
    | _ => (false, cs)
  let neg := signSplit.1
  let cs1 := signSplit.2
  match cs1 with
  | [] => none
  | c :: _ =>
    if !c.isDigit then none
    else
      let (ipart, r1) := match cs1 with
        | '0' :: r => (['0'], r)
        | _ => takeDigits cs1
      let (fpart, r2) := match r1 with
        | '.' :: d :: r =>
          if d.isDigit then
            let (ds, rest) := takeDigits (d :: r)
            (some ds, rest)
          else (none, r1)
        | _ => (none, r1)
      let (epart, r3) := match r2 with
        | e :: r =>
          if e == 'e' || e == 'E' then
            match r with
            | '+' :: d :: r' =>
              if d.isDigit then
                let (ds, rest) := takeDigits (d :: r')
                (some (Int.ofNat (digitsToNat ds)), rest)
              else (none, r2)
            | '-' :: d :: r' =>
              if d.isDigit then
                let (ds, rest) := takeDigits (d :: r')
                (some (-(Int.ofNat (digitsToNat ds))), rest)
              else (none, r2)
            | d :: r' =>
              if d.isDigit then
                let (ds, rest) := takeDigits (d :: r')
                (some (Int.ofNat (digitsToNat ds)), rest)
              else (none, r2)
            | [] => (none, r2)
          else (none, r2)
        | [] => (none, r2)
      let sign : Int := if neg then -1 else 1
      match fpart, epart with
      | none, none => some (.jint (sign * Int.ofNat (digitsToNat ipart)), r3)
      | _, _ =>
        let fds := fpart.getD []
        let m : Int := sign * Int.ofNat (digitsToNat (ipart ++ fds))
        let e : Int := epart.getD 0 - Int.ofNat fds.length
        some (.jfloat m e, r3)

mutual

/-- Recursive-descent JSON value parser (fuel bounds the recursion; the
fuel supplied by `json_loads` is ample for any input of its length). -/
def parseValue : Nat → List Char → Option (JValue × List Char)
  | 0, _ => none
  | f + 1, cs =>
    match skipWs cs with
    | '\x7b' :: r => parseObjBody f r
    | '[' :: r => parseArrBody f r
    | '"' :: r =>
        (parseStringRest (r.length + 1) r []).map (fun p => (.jstr p.1, p.2))
    | 't' :: 'r' :: 'u' :: 'e' :: r => some (.jbool true, r)
    | 'f' :: 'a' :: 'l' :: 's' :: 'e' :: r => some (.jbool false, r)
    | 'n' :: 'u' :: 'l' :: 'l' :: r => some (.jnull, r)
    | 'N' :: 'a' :: 'N' :: r => some (.jnan, r)
    | 'I' :: 'n' :: 'f' :: 'i' :: 'n' :: 'i' :: 't' :: 'y' :: r =>
        some (.jinf false, r)
    | '-' :: 'I' :: 'n' :: 'f' :: 'i' :: 'n' :: 'i' :: 't' :: 'y' :: r =>
        some (.jinf true, r)
    | cs' => parseNumber cs'

/-- Object body after `\x7b`: empty object or member list. -/
def parseObjBody : Nat → List Char → Option (JValue × List Char)
  | 0, _ => none
  | f + 1, cs =>
    match skipWs cs with
    | '\x7d' :: r => some (.jobj [], r)
    | cs' => parseMembers f cs' []

/-- Members of an object: `"key" : value`, separated by commas. -/
def parseMembers : Nat → List Char → List (String × JValue) →
    Option (JValue × List Char)
  | 0, _, _ => none
  | f + 1, cs, acc =>
    match skipWs cs with
    | '"' :: r =>
      match parseStringRest (r.length + 1) r [] with
      | none => none
      | some (k, r2) =>
        match skipWs r2 with
        | ':' :: r3 =>
          match parseValue f r3 with
          | none => none
          | some (v, r4) =>
            let acc' := insertKV acc k v
            match skipWs r4 with
            | ',' :: r5 => parseMembers f r5 acc'
            | '\x7d' :: r5 => some (.jobj acc', r5)
            | _ => none
        | _ => none
    | _ => none

/-- Array body after `[`: empty array or element list. -/
def parseArrBody : Nat → List Char → Option (JValue × List Char)
  | 0, _ => none
  | f + 1, cs =>
    match skipWs cs with
    | ']' :: r => some (.jarr [], r)
    | cs' => parseElems f cs' []

/-- Elements of an array, separated by commas. -/
def parseElems : Nat → List Char → List JValue →
    Option (JValue × List Char)
  | 0, _, _ => none
  | f + 1, cs, acc =>
    match parseValue f cs with
    | none => none
    | some (v, r) =>
      match skipWs r with
      | ',' :: r2 => parseElems f r2 (v :: acc)
      | ']' :: r2 => some (.jarr (v :: acc).reverse, r2)
      | _ => none

end

/-- Model of `json.loads` with its default settings: parse one JSON
value — including the non-standard `NaN`/`Infinity`/`-Infinity`
constants Python accepts by default — require only whitespace
after it, and report failures as `json.JSONDecodeError` (the model keeps
the leading phrase of CPython's message and drops its line/column
suffix, which nothing in the code inspects). -/
def json_loads (s : String) : Except PyExn JValue :=
  match parseValue (3 * s.length + 8) s.toList with
  | some (v, rest) =>
    if (skipWs rest).isEmpty then .ok v
    else .error (.jsonDecodeError "Extra data")
  | none => .error (.jsonDecodeError "Expecting value")

/-- The five player stats read from the external game state
(`game_state.stats.<name>` in the source). -/
structure Stats where
  intimacy : Int
  mental : Int
  stamina : Int
  power : Int
  speed : Int
deriving Repr, DecidableEq

/-- The slice of the external game state the calculator consults:
`current_month` and the stat container. -/
structure GameState where
  current_month : Int
  stats : Stats
deriving Repr, DecidableEq

/-- `json.dumps(current_stats, ensure_ascii=False)` for the dict literal
built at the top of `analyze_conversation` (Python 3.7+ dicts preserve
the insertion order of the five keys; `json.dumps` uses `", "` and
`": "` separators and renders ints with `str`). -/
def json_dumps_stats (s : Stats) : String :=
  "\x7b\"intimacy\": " ++ toString s.intimacy ++
  ", \"mental\": " ++ toString s.mental ++
  ", \"stamina\": " ++ toString s.stamina ++
  ", \"power\": " ++ toString s.power ++
  ", \"speed\": " ++ toString s.speed ++ "\x7d"

/-- The fixed system instruction of the prompt, as rendered by
`ChatPromptTemplate` (the `\x7b\x7b`/`\x7d\x7d` escapes of the f-string
template collapse to single braces; it contains no variables). -/
def systemMessage : String :=
  "당신은 야구 선수 코칭 상황을 분석하는 전문가입니다.

코치(사용자)와 선수(AI)의 대화를 분석하여, 다음 스탯에 미칠 영향을 평가하세요:

**스탯 종류 및 변화 범위:**
- intimacy (친밀도): -10 ~ +10
  * 공감, 격려, 개인적 관심 → 상승
  * 무시, 비난, 강압적 태도 → 하락

- mental (멘탈): -10 ~ +10
  * 자신감 부여, 성공 경험 강조 → 상승
  * 비판, 실패 강조, 압박 → 하락

- stamina (체력): -5 ~ +5
  * 체력 훈련 언급, 휴식 권장 → 변화
  * 과도한 훈련 → 하락

- power (힘): -5 ~ +5
  * 근력 훈련 언급, 타격 연습 → 변화

- speed (주루능력): -5 ~ +5
  * 주루 훈련 언급, 도루 연습 → 변화
  * 도루 관련 부정적 언급 → 하락 (트라우마 고려)

**중요:**
- 일반적인 대화는 스탯 변화가 적거나 없을 수 있습니다
- 구체적인 훈련이나 감정적 교류가 있을 때만 큰 변화
- 선수의 트라우마(도루 공포증)를 고려하세요
- 현재 친밀도가 낮으면 긍정적 효과도 제한적입니다

**응답 형식 (JSON):**
\x7b
    \"stat_changes\": \x7b
        \"intimacy\": 0,
        \"mental\": 0,
        \"stamina\": 0,
        \"power\": 0,
        \"speed\": 0
    \x7d,
    \"reason\": \"변화 이유를 한 문장으로 설명\",
    \"analysis\": \"상세 분석 (선택)\"
\x7d

변화가 없는 스탯은 0으로 설정하거나 생략 가능합니다."

/-- Truthiness of the `conversation_context: str = None` parameter, as
tested by the source's `if conversation_context else`: `None` and the
empty string are falsy, every other string is truthy. -/
def pyStrOptTruthy : Option String → Bool
  | none => false
  | some s => !s.isEmpty

/-- `context_info = f"[대화 맥락]\n\x7bconversation_context\x7d" if conversation_context else ""`. -/
def contextInfoOf (conversation_context : Option String) : String :=
  if pyStrOptTruthy conversation_context then
    "[대화 맥락]\n" ++ conversation_context.getD ""
  else ""

/-- The per-call human instruction of the prompt, with the template's
five variables interpolated. -/
def humanMessage (game_state : GameState)
    (user_message bot_reply context_info : String) : String :=
  "[현재 게임 상태]\n- 현재 시점: " ++ toString game_state.current_month ++
  "월\n- 현재 스탯: " ++ json_dumps_stats game_state.stats ++
  "\n\n[이번 대화]\n코치(사용자): " ++ user_message ++
  "\n민석(AI): " ++ bot_reply ++
  "\n\n" ++ context_info ++
  "\n\n이 대화가 민석의 스탯에 미치는 영향을 분석해주세요."

/-- Python `v.get(k, default)`: defaulting field lookup on a `dict`;
on any other decoded value it raises `AttributeError`, which the
source's `except (json.JSONDecodeError, KeyError)` does not catch. -/
def pyDictGet (v : JValue) (k : String) (dflt : JValue) :
    Except PyExn JValue :=
  match v with
  | .jobj fs => .ok ((lookupKV fs k).getD dflt)
  | other =>
      .error (.attributeError
        ("'" ++ pyTypeName other ++ "' object has no attribute 'get'"))

/-- Python `v.items()`: the ordered pairs of a `dict`; an
`AttributeError` on any other decoded value. -/
def pyItems (v : JValue) : Except PyExn (List (String × JValue)) :=
  match v with
  | .jobj fs => .ok fs
  | other =>
      .error (.attributeError
        ("'" ++ pyTypeName other ++ "' object has no attribute 'items'"))

/-- Python `v != 0` on a decoded JSON value, the test of the source's
`\x7bk: v for k, v in stat_changes.items() if v != 0\x7d` comprehension.
Numeric values (`int`, `float`, and `bool`, which Python treats as the
numbers 0 and 1) compare equal to `0` when their value is zero; `nan`
and `±inf` are unequal to `0`, as is every non-numeric value. -/
def pyNeZero : JValue → Bool
  | .jbool b => b
  | .jint n => n != 0
  | .jfloat m _ => m != 0
  | .jnan => true
  | .jinf _ => true
  | _ => true

/-- The returned stat-delta mapping: stat name to decoded change value
(ordered, unique keys). -/
abbrev StatDelta := List (String × JValue)

/-- The default reason `'대화 분석 완료'` ("analysis complete"). -/
def defaultReason : String := "대화 분석 완료"

/-- The fixed failure reason `'스탯 분석 실패'` ("stat analysis failed"),
which the spec renders in English as "analysis failed". -/
def failureReason : String := "스탯 분석 실패"

/-- The body of the `try` block downstream of receiving the response
text: `json.loads`, the two defaulting `.get` extractions, and the
zero-filtering dict comprehension.  The extracted `reason` is whatever
decoded value the field held (a string only by convention). -/
def tryBody (content : String) : Except PyExn (StatDelta × JValue) :=
  match json_loads content with
  | .error e => .error e
  | .ok result =>
    match pyDictGet result "stat_changes" (.jobj []) with
    | .error e => .error e
    | .ok stat_changes =>
      match pyDictGet result "reason" (.jstr defaultReason) with
      | .error e => .error e
      | .ok reason =>
        match pyItems stat_changes with
        | .error e => .error e
        | .ok items => .ok (items.filter (fun kv => pyNeZero kv.2), reason)

/-- Which exceptions the source's `except (json.JSONDecodeError, KeyError)`
clause intercepts. -/
def exnCaught : PyExn → Bool
  | .jsonDecodeError _ => true
  | .keyError _ => true
  | .attributeError _ => false

/-- `type(e).__name__` for the modelled exceptions. -/
def exnName : PyExn → String
  | .jsonDecodeError _ => "JSONDecodeError"
  | .keyError _ => "KeyError"
  | .attributeError _ => "AttributeError"

/-- `str(e)` for the modelled exceptions (a `KeyError` prints its key in
quotes). -/
def exnMsg : PyExn → String
  | .jsonDecodeError m => m
  | .keyError k => "'" ++ k ++ "'"
  | .attributeError m => m

/-- The diagnostic line printed by the handler:
`f"[WARNING] 스탯 분석 실패 (\x7btype(e).__name__\x7d): \x7be\x7d"`. -/
def warnMsg (e : PyExn) : String :=
  "[WARNING] 스탯 분석 실패 (" ++ exnName e ++ "): " ++ exnMsg e

/-- What a call to `analyze_conversation` does once the oracle's text is
in hand: the warnings it prints, and either the returned pair or the
exception it raises to its caller. -/
structure AnalyzeOutcome where
  warnings : List String
  result : Except PyExn (StatDelta × JValue)
deriving Repr

/-- The `try`/`except` of `analyze_conversation` around `tryBody`: a
caught exception is logged and converted to the no-op pair
`(\x7b\x7d, '스탯 분석 실패')`; any other exception propagates. -/
def processResponse (content : String) : AnalyzeOutcome :=
  match tryBody content with
  | .ok r => ⟨[], .ok r⟩
  | .error e =>
    if exnCaught e then ⟨[warnMsg e], .ok ([], .jstr failureReason)⟩
    else ⟨[], .error e⟩

/-- `StatCalculator.analyze_conversation`, with the oracle
(`chain.invoke` over the rendered prompt) passed in as the function
`llm` from (system message, human message) to response content.
Oracle transport failures are outside the model; everything downstream
of receiving the content is `processResponse`. -/
def analyze_conversation (llm : String → String → String)
    (user_message bot_reply : String) (game_state : GameState)
    (conversation_context : Option String := none) : AnalyzeOutcome :=
  let context_info := contextInfoOf conversation_context
  let content :=
    llm systemMessage
      (humanMessage game_state user_message bot_reply context_info)
  processResponse content

/-- The static `training_effects` table of
`StatCalculator.calculate_training_bonus` ("체력" = stamina training,
"근력" = strength training, "주루" = base running, "타격" = batting,
"멘탈" = mental training). -/
def training_effects : List (String × List (String × Int)) :=
  [("체력", [("stamina", 5), ("mental", 2)]),
   ("근력", [("power", 5), ("stamina", -2)]),
   ("주루", [("speed", 5), ("mental", 3)]),
   ("타격", [("power", 3), ("mental", 2)]),
   ("멘탈", [("mental", 5), ("intimacy", 2)])]

/-- `StatCalculator.calculate_training_bonus`:
`training_effects.get(training_type, \x7b\x7d)`.  The `game_state`
parameter is accepted, as in the source, and never consulted. -/
def calculate_training_bonus (training_type : String)
    (game_state : GameState) : List (String × Int) :=
  ((training_effects.find? (fun kv => training_type == kv.1)).map
    (fun kv => kv.2)).getD []

/-- `StatCalculator.get_intimacy_level`: the five-band threshold ladder
over the intimacy value. -/
def get_intimacy_level (intimacy : Int) : String :=
  if intimacy < 20 then "매우 낮음 - 거의 대화하지 않으려 함"
  else if intimacy < 40 then "낮음 - 방어적이고 거리를 둠"
  else if intimacy < 60 then "보통 - 조금씩 마음을 열기 시작"
  else if intimacy < 80 then "높음 - 신뢰하고 협조적"
  else "매우 높음 - 진심으로 존경하고 따름"

/-- Whether a decoded `stat_changes` member supports `.items()` without
raising: absent (the default `\x7b\x7d` applies) or itself an object. -/
def statChangesShapeOk : Option JValue → Bool
  | none => true
  | some (.jobj _) => true
  | some _ => false

/-- The response texts on which every failure downstream of receiving
the text is absorbed by the handler: the text fails to decode, or it
decodes to an object whose `stat_changes` member, when present, is
itself an object.  (Outside this set the code raises an uncaught
`AttributeError`.) -/
def absorbedShape (content : String) : Bool :=
  match json_loads content with
  | .error _ => true
  | .ok (.jobj fs) => statChangesShapeOk (lookupKV fs "stat_changes")
  | .ok _ => false

/-- `json_loads` fails only with a `json.JSONDecodeError` (helper shared
by the error-path theorems). -/
theorem json_loads_error_is_decode (s : String) (e : PyExn)
    (h : json_loads s = .error e) : ∃ m, e = .jsonDecodeError m := by
  unfold json_loads at h
  cases hp : parseValue (3 * s.length + 8) s.toList with
  | none =>
    rw [hp] at h
    simp only [Except.error.injEq] at h
    exact ⟨"Expecting value", h.symm⟩
  | some p =>
    rw [hp] at h
    by_cases hw : (skipWs p.2).isEmpty
    · simp [hw] at h
    · simp [hw, Except.error.injEq] at h
      exact ⟨"Extra data", h.symm⟩

/-- C6: `get_intimacy_level` is total over the integers and maps each of
the five bands cut at 20, 40, 60, 80 — each inclusive at its lower
bound — to its fixed descriptor: below 20 the lowest tier, and at or
above 80 the highest tier. -/
theorem get_intimacy_level_bands (n : Int) :
    (n < 20 → get_intimacy_level n = "매우 낮음 - 거의 대화하지 않으려 함") ∧
    (20 ≤ n → n < 40 → get_intimacy_level n = "낮음 - 방어적이고 거리를 둠") ∧
    (40 ≤ n → n < 60 → get_intimacy_level n = "보통 - 조금씩 마음을 열기 시작") ∧
    (60 ≤ n → n < 80 → get_intimacy_level n = "높음 - 신뢰하고 협조적") ∧
    (80 ≤ n → get_intimacy_level n = "매우 높음 - 진심으로 존경하고 따름") := by
  unfold get_intimacy_level
  refine ⟨?_, ?_, ?_, ?_, ?_⟩ <;> intros <;> split_ifs <;> first | rfl | omega

/-- C6 witness: the lower bound 20 falls in the second band, 100 and
150 in the highest. -/
theorem get_intimacy_level_bands_witness :
    get_intimacy_level 20 = "낮음 - 방어적이고 거리를 둠" ∧
    get_intimacy_level 100 = "매우 높음 - 진심으로 존경하고 따름" ∧
    get_intimacy_level 150 = "매우 높음 - 진심으로 존경하고 따름" :=
  ⟨(get_intimacy_level_bands 20).2.1 (by decide) (by decide),
   (get_intimacy_level_bands 100).2.2.2.2 (by decide),
   (get_intimacy_level_bands 150).2.2.2.2 (by decide)⟩

/-- C7: the strength-training type ("근력") yields the fixed bonus
`power +5, stamina -2`, and any training type outside the table's
five-entry vocabulary yields the empty mapping, for every game state. -/
theorem calculate_training_bonus_strength_unknown :
    (∀ gs : GameState,
      calculate_training_bonus "근력" gs = [("power", 5), ("stamina", -2)]) ∧
    (∀ (gs : GameState) (t : String),
      t ∉ (["체력", "근력", "주루", "타격", "멘탈"] : List String) →
      calculate_training_bonus t gs = []) := by
  constructor
  · intro gs
    rfl
  · intro gs t h
    simp only [List.mem_cons, List.not_mem_nil, or_false, not_or] at h
    obtain ⟨h1, h2, h3, h4, h5⟩ := h
    simp [calculate_training_bonus, training_effects, List.find?,
      beq_false_of_ne h1, beq_false_of_ne h2, beq_false_of_ne h3,
      beq_false_of_ne h4, beq_false_of_ne h5]

/-- C7 witness: the unlisted type "unknown-type" yields the empty
mapping. -/
theorem calculate_training_bonus_strength_unknown_witness :
    ("unknown-type" : String) ∉
      (["체력", "근력", "주루", "타격", "멘탈"] : List String) ∧
    calculate_training_bonus "unknown-type" ⟨1, ⟨0, 0, 0, 0, 0⟩⟩ = [] :=
  ⟨by decide,
   calculate_training_bonus_strength_unknown.2 ⟨1, ⟨0, 0, 0, 0, 0⟩⟩
     "unknown-type" (by decide)⟩

/-- C9: `calculate_training_bonus` depends only on its training-type
argument; the game-state parameter is never consulted. -/
theorem calculate_training_bonus_ignores_game_state (t : String)
    (gs1 gs2 : GameState) :
    calculate_training_bonus t gs1 = calculate_training_bonus t gs2 := rfl

/-- C10: passing the empty string as `conversation_context` behaves
exactly like omitting it: the rendered context block is empty either
way (the source tests the context for truthiness, and `""` is falsy),
the per-call instruction coincides, and the whole call returns the same
outcome for every oracle and every other input. -/
theorem analyze_empty_context_equals_none (llm : String → String → String)
    (u b : String) (gs : GameState) :
    contextInfoOf (some "") = "" ∧ contextInfoOf none = "" ∧
    humanMessage gs u b (contextInfoOf (some "")) =
      humanMessage gs u b (contextInfoOf none) ∧
    analyze_conversation llm u b gs (some "") =
      analyze_conversation llm u b gs none :=
  ⟨rfl, rfl, rfl, rfl⟩

/-- C8: the end-to-end scenario — month 3, the five stats 30/50/60/40/45,
the given coach and player utterances, and an oracle stub answering with
`stat_changes \x7bintimacy: 5, mental: 3, stamina: 0\x7d` and reason
"Positive encouragement" — returns exactly the two non-zero entries and
that reason, raising nothing and printing no warning. -/
theorem analyze_end_to_end_scenario :
    analyze_conversation
      (fun _ _ =>
        "\x7b\"stat_changes\":\x7b\"intimacy\":5,\"mental\":3,\"stamina\":0\x7d,\"reason\":\"Positive encouragement\"\x7d")
      "You did great today, keep it up!" "Thanks, coach!"
      ⟨3, ⟨30, 50, 60, 40, 45⟩⟩ none =
    ⟨[], .ok ([("intimacy", .jint 5), ("mental", .jint 3)],
      .jstr "Positive encouragement")⟩ := rfl

/-- Helper: on a caught decode failure, `processResponse` logs the
warning and returns the no-op pair. -/
theorem processResponse_error (content : String) (e : PyExn)
    (h : json_loads content = .error e) :
    processResponse content = ⟨[warnMsg e], .ok ([], .jstr failureReason)⟩ := by
  obtain ⟨m, rfl⟩ := json_loads_error_is_decode _ _ h
  unfold processResponse tryBody
  simp [h, exnCaught]

/-- Helper: on a decoded object whose `stat_changes` member is an
object, `processResponse` returns the zero-filtered entries and the
defaulted `reason`. -/
theorem processResponse_ok_of_obj (content : String)
    (fs sc : List (String × JValue))
    (hdec : json_loads content = .ok (.jobj fs))
    (hsc : lookupKV fs "stat_changes" = some (.jobj sc)) :
    processResponse content =
      ⟨[], .ok (sc.filter (fun kv => pyNeZero kv.2),
        (lookupKV fs "reason").getD (.jstr defaultReason))⟩ := by
  unfold processResponse tryBody
  simp [hdec, pyDictGet, pyItems, hsc]

/-- Helper: on a decoded object with no `stat_changes` member, the
default empty dict applies and `processResponse` returns the empty
delta and the defaulted `reason`. -/
theorem processResponse_ok_of_obj_nosc (content : String)
    (fs : List (String × JValue))
    (hdec : json_loads content = .ok (.jobj fs))
    (hsc : lookupKV fs "stat_changes" = none) :
    processResponse content =
      ⟨[], .ok ([],
        (lookupKV fs "reason").getD (.jstr defaultReason))⟩ := by
  unfold processResponse tryBody
  simp [hdec, pyDictGet, pyItems, hsc]

/-- Helper: a list all of whose values fail the `!= 0` test filters to
the empty list. -/
theorem filter_nonzero_eq_nil (l : List (String × JValue))
    (hz : ∀ kv ∈ l, pyNeZero kv.2 = false) :
    l.filter (fun kv => pyNeZero kv.2) = [] := by
  induction l with
  | nil => rfl
  | cons a l ih =>
    have ha := hz a (List.mem_cons_self a l)
    have ht := ih (fun kv hkv => hz kv (List.mem_cons_of_mem a hkv))
    simp [List.filter_cons, ha, ht]

/-- C1 counterexample: the claim says every failure downstream of
receiving the response text is absorbed, but a response text that is
valid JSON without being an object — here `[1, 2, 3]` — makes
`result.get('stat_changes', ...)` raise an `AttributeError`, which the
`except (json.JSONDecodeError, KeyError)` clause does not intercept, so
`analyze_conversation` raises to its caller. -/
theorem analyze_attrerror_on_list_response :
    analyze_conversation (fun _ _ => "[1, 2, 3]") "u" "b"
      ⟨1, ⟨0, 0, 0, 0, 0⟩⟩ none =
    ⟨[], .error (.attributeError "'list' object has no attribute 'get'")⟩ :=
  rfl

/-- C1 amended: on every response text that fails to decode, or decodes
to a JSON object whose `stat_changes` member (when present) is itself
an object, `analyze_conversation` absorbs all downstream failures and
returns a well-formed pair; outside that set (non-object response, or
non-object `stat_changes`) an uncaught `AttributeError` propagates. -/
theorem analyze_absorbs_when_shape_ok (llm : String → String → String)
    (u b : String) (gs : GameState) (ctx : Option String)
    (h : absorbedShape
      (llm systemMessage (humanMessage gs u b (contextInfoOf ctx))) = true) :
    ∃ p, (analyze_conversation llm u b gs ctx).result = .ok p := by
  show ∃ p, (processResponse
    (llm systemMessage (humanMessage gs u b (contextInfoOf ctx)))).result = .ok p
  unfold absorbedShape at h
  split at h
  · next e hj => exact ⟨_, by rw [processResponse_error _ e hj]⟩
  · next fs hj =>
    cases hsc : lookupKV fs "stat_changes" with
    | none => exact ⟨_, by rw [processResponse_ok_of_obj_nosc _ fs hj hsc]⟩
    | some w =>
      rw [hsc] at h
      cases w with
      | jobj sc => exact ⟨_, by rw [processResponse_ok_of_obj _ fs sc hj hsc]⟩
      | jnull => simp [statChangesShapeOk] at h
      | jnan => simp [statChangesShapeOk] at h
      | jinf neg => simp [statChangesShapeOk] at h
      | jbool b' => simp [statChangesShapeOk] at h
      | jint n => simp [statChangesShapeOk] at h
      | jfloat m e' => simp [statChangesShapeOk] at h
      | jstr s => simp [statChangesShapeOk] at h
      | jarr xs => simp [statChangesShapeOk] at h
  · next hj => simp at h

/-- C1 amended witness: the empty-object response `\x7b\x7d` is in the
absorbed set and the call returns a pair. -/
theorem analyze_absorbs_when_shape_ok_witness :
    absorbedShape ((fun _ _ => "\x7b\x7d") systemMessage
      (humanMessage ⟨1, ⟨0, 0, 0, 0, 0⟩⟩ "u" "b" (contextInfoOf none))) = true ∧
    ∃ p, (analyze_conversation (fun _ _ => "\x7b\x7d") "u" "b"
      ⟨1, ⟨0, 0, 0, 0, 0⟩⟩ none).result = .ok p :=
  ⟨rfl, analyze_absorbs_when_shape_ok (fun _ _ => "\x7b\x7d") "u" "b"
    ⟨1, ⟨0, 0, 0, 0, 0⟩⟩ none rfl⟩

/-- C2: on any response text whose decoding fails, the call raises
nothing: it prints the one diagnostic warning naming the failure kind
and message and returns exactly the empty delta paired with the fixed
failure reason `'스탯 분석 실패'` (the string the spec renders as
"analysis failed").  The parenthesised missing-field case of the claim
(`KeyError`) is likewise intercepted by the handler but cannot arise,
since the code reads fields only through defaulting `.get`. -/
theorem analyze_decode_failure_returns_noop (llm : String → String → String)
    (u b : String) (gs : GameState) (ctx : Option String) (e : PyExn)
    (h : json_loads
      (llm systemMessage (humanMessage gs u b (contextInfoOf ctx))) = .error e) :
    analyze_conversation llm u b gs ctx =
      ⟨[warnMsg e], .ok ([], .jstr failureReason)⟩ := by
  show processResponse _ = _
  exact processResponse_error _ e h

/-- C2 witness: a non-JSON response text yields the warning and the
no-op pair. -/
theorem analyze_decode_failure_returns_noop_witness :
    json_loads ((fun _ _ => "not json") systemMessage
      (humanMessage ⟨1, ⟨0, 0, 0, 0, 0⟩⟩ "u" "b" (contextInfoOf none))) =
      .error (.jsonDecodeError "Expecting value") ∧
    analyze_conversation (fun _ _ => "not json") "u" "b"
      ⟨1, ⟨0, 0, 0, 0, 0⟩⟩ none =
    ⟨["[WARNING] 스탯 분석 실패 (JSONDecodeError): Expecting value"],
      .ok ([], .jstr "스탯 분석 실패")⟩ :=
  ⟨rfl, analyze_decode_failure_returns_noop (fun _ _ => "not json") "u" "b"
    ⟨1, ⟨0, 0, 0, 0, 0⟩⟩ none (.jsonDecodeError "Expecting value") rfl⟩

/-- C3: whenever the response decodes to an object whose `stat_changes`
member is an object, the returned delta is exactly the entries whose
value is non-zero (non-zero in the sense of the source's Python
`v != 0` test, `pyNeZero`), with keys, values and order unchanged; in
particular an all-zero `stat_changes` yields the empty mapping, never a
mapping of zeros. -/
theorem analyze_keeps_exactly_nonzero_entries (llm : String → String → String)
    (u b : String) (gs : GameState) (ctx : Option String)
    (fs sc : List (String × JValue))
    (hdec : json_loads
      (llm systemMessage (humanMessage gs u b (contextInfoOf ctx))) =
      .ok (.jobj fs))
    (hsc : lookupKV fs "stat_changes" = some (.jobj sc)) :
    ∃ reason, (analyze_conversation llm u b gs ctx).result =
        .ok (sc.filter (fun kv => pyNeZero kv.2), reason) ∧
      ((∀ kv ∈ sc, pyNeZero kv.2 = false) →
        sc.filter (fun kv => pyNeZero kv.2) = []) := by
  refine ⟨(lookupKV fs "reason").getD (.jstr defaultReason), ?_,
    filter_nonzero_eq_nil sc⟩
  show (processResponse _).result = _
  rw [processResponse_ok_of_obj _ fs sc hdec hsc]

/-- C3 witness: a `stat_changes` of `\x7ba: 0, b: 2\x7d` keeps exactly
the `b` entry. -/
theorem analyze_keeps_exactly_nonzero_entries_witness :
    json_loads ((fun _ _ =>
        "\x7b\"stat_changes\":\x7b\"a\":0,\"b\":2\x7d,\"reason\":\"x\"\x7d")
        systemMessage
        (humanMessage ⟨1, ⟨0, 0, 0, 0, 0⟩⟩ "u" "b" (contextInfoOf none))) =
      .ok (.jobj [("stat_changes", .jobj [("a", .jint 0), ("b", .jint 2)]),
        ("reason", .jstr "x")]) ∧
    lookupKV [("stat_changes", .jobj [("a", .jint 0), ("b", .jint 2)]),
        ("reason", .jstr "x")] "stat_changes" =
      some (.jobj [("a", .jint 0), ("b", .jint 2)]) ∧
    ∃ reason, (analyze_conversation (fun _ _ =>
        "\x7b\"stat_changes\":\x7b\"a\":0,\"b\":2\x7d,\"reason\":\"x\"\x7d")
        "u" "b" ⟨1, ⟨0, 0, 0, 0, 0⟩⟩ none).result =
        .ok ([("b", .jint 2)], reason) ∧
      ((∀ kv ∈ [("a", JValue.jint 0), ("b", JValue.jint 2)],
          pyNeZero kv.2 = false) →
        [("a", JValue.jint 0), ("b", JValue.jint 2)].filter
          (fun kv => pyNeZero kv.2) = []) :=
  ⟨rfl, rfl, analyze_keeps_exactly_nonzero_entries (fun _ _ =>
      "\x7b\"stat_changes\":\x7b\"a\":0,\"b\":2\x7d,\"reason\":\"x\"\x7d")
    "u" "b" ⟨1, ⟨0, 0, 0, 0, 0⟩⟩ none
    [("stat_changes", .jobj [("a", .jint 0), ("b", .jint 2)]),
      ("reason", .jstr "x")]
    [("a", .jint 0), ("b", .jint 2)] rfl rfl⟩

/-- C4 counterexample: the claim promises that a successfully decoded
object with no `reason` field yields the generic default reason and "not
an error"; but the object `\x7b"stat_changes": 5\x7d` decodes
successfully, has no `reason` field, and the call raises an uncaught
`AttributeError` from `stat_changes.items()` instead of returning. -/
theorem analyze_attrerror_on_int_stat_changes :
    analyze_conversation (fun _ _ => "\x7b\"stat_changes\": 5\x7d") "u" "b"
      ⟨1, ⟨0, 0, 0, 0, 0⟩⟩ none =
    ⟨[], .error (.attributeError "'int' object has no attribute 'items'")⟩ :=
  rfl

/-- C4 amended: for a response decoding to an object, an absent
`stat_changes` yields the empty delta; and an absent `reason` yields the
generic default reason `'대화 분석 완료'` ("analysis complete") provided
the call returns at all, i.e. provided `stat_changes` is absent or is
itself an object (a present non-object `stat_changes` raises an
uncaught `AttributeError` instead). -/
theorem analyze_defaults_for_missing_fields (llm : String → String → String)
    (u b : String) (gs : GameState) (ctx : Option String)
    (fs : List (String × JValue))
    (hdec : json_loads
      (llm systemMessage (humanMessage gs u b (contextInfoOf ctx))) =
      .ok (.jobj fs)) :
    (lookupKV fs "stat_changes" = none →
      (analyze_conversation llm u b gs ctx).result =
        .ok ([], (lookupKV fs "reason").getD (.jstr defaultReason))) ∧
    (lookupKV fs "reason" = none →
      (lookupKV fs "stat_changes" = none ∨
        ∃ sc, lookupKV fs "stat_changes" = some (.jobj sc)) →
      ∃ δ, (analyze_conversation llm u b gs ctx).result =
        .ok (δ, .jstr defaultReason)) := by
  constructor
  · intro hsc
    show (processResponse _).result = _
    rw [processResponse_ok_of_obj_nosc _ fs hdec hsc]
  · intro hr hsc
    rcases hsc with hnone | ⟨sc, hsome⟩
    · refine ⟨[], ?_⟩
      show (processResponse _).result = _
      rw [processResponse_ok_of_obj_nosc _ fs hdec hnone, hr]
      rfl
    · refine ⟨sc.filter (fun kv => pyNeZero kv.2), ?_⟩
      show (processResponse _).result = _
      rw [processResponse_ok_of_obj _ fs sc hdec hsome, hr]
      rfl

/-- C4 amended witness: a decoded object with neither field yields the
empty delta and the generic default reason. -/
theorem analyze_defaults_for_missing_fields_witness :
    json_loads ((fun _ _ => "\x7b\"analysis\": \"notes\"\x7d") systemMessage
      (humanMessage ⟨1, ⟨0, 0, 0, 0, 0⟩⟩ "u" "b" (contextInfoOf none))) =
      .ok (.jobj [("analysis", .jstr "notes")]) ∧
    lookupKV [("analysis", JValue.jstr "notes")] "stat_changes" = none ∧
    (analyze_conversation (fun _ _ => "\x7b\"analysis\": \"notes\"\x7d")
      "u" "b" ⟨1, ⟨0, 0, 0, 0, 0⟩⟩ none).result =
      .ok ([], .jstr "대화 분석 완료") :=
  ⟨rfl, rfl,
   (analyze_defaults_for_missing_fields (fun _ _ => "\x7b\"analysis\": \"notes\"\x7d")
     "u" "b" ⟨1, ⟨0, 0, 0, 0, 0⟩⟩ none [("analysis", .jstr "notes")] rfl).1 rfl⟩

/-- C5 counterexample: the claim says any non-integer value is passed
through to the returned delta as-is; but the non-integer float `0.0`
compares equal to `0` in Python, so the entry `"stamina": 0.0` is
removed by the zero filter rather than returned. -/
theorem analyze_drops_float_zero_entry :
    (analyze_conversation (fun _ _ =>
        "\x7b\"stat_changes\": \x7b\"stamina\": 0.0\x7d, \"reason\": \"r\"\x7d")
      "u" "b" ⟨1, ⟨0, 0, 0, 0, 0⟩⟩ none).result =
    .ok ([], .jstr "r") := rfl

/-- C5 amended: the parser validates neither key vocabulary nor value
ranges nor value types: an entry of the decoded `stat_changes` object
appears in the returned delta, with key and value unchanged, exactly
when its value survives Python's `v != 0` test — so unknown keys,
out-of-range values and non-integer values all pass through, except
that values comparing numerically equal to zero (`0`, `0.0`, `false`)
are removed. -/
theorem analyze_no_key_or_range_validation (llm : String → String → String)
    (u b : String) (gs : GameState) (ctx : Option String)
    (fs sc : List (String × JValue))
    (hdec : json_loads
      (llm systemMessage (humanMessage gs u b (contextInfoOf ctx))) =
      .ok (.jobj fs))
    (hsc : lookupKV fs "stat_changes" = some (.jobj sc)) :
    ∃ δ reason, (analyze_conversation llm u b gs ctx).result = .ok (δ, reason) ∧
      ∀ kv : String × JValue, kv ∈ δ ↔ (kv ∈ sc ∧ pyNeZero kv.2 = true) := by
  refine ⟨sc.filter (fun kv => pyNeZero kv.2),
    (lookupKV fs "reason").getD (.jstr defaultReason), ?_, ?_⟩
  · show (processResponse _).result = _
    rw [processResponse_ok_of_obj _ fs sc hdec hsc]
  · intro kv
    simp [List.mem_filter]

/-- C5 amended witness: the unknown key "charisma" with the
out-of-range value 999 and the non-integer string value of "luck" pass
through unchanged, while the zero-valued float entry is removed. -/
theorem analyze_no_key_or_range_validation_witness :
    json_loads ((fun _ _ =>
        "\x7b\"stat_changes\": \x7b\"charisma\": 999, \"luck\": \"high\", \"stamina\": 0.0\x7d, \"reason\": \"r\"\x7d")
        systemMessage
        (humanMessage ⟨1, ⟨0, 0, 0, 0, 0⟩⟩ "u" "b" (contextInfoOf none))) =
      .ok (.jobj [("stat_changes", .jobj [("charisma", .jint 999),
          ("luck", .jstr "high"), ("stamina", .jfloat 0 (-1))]),
        ("reason", .jstr "r")]) ∧
    lookupKV [("stat_changes", JValue.jobj [("charisma", JValue.jint 999),
        ("luck", JValue.jstr "high"), ("stamina", JValue.jfloat 0 (-1))]),
      ("reason", JValue.jstr "r")] "stat_changes" =
      some (.jobj [("charisma", .jint 999), ("luck", .jstr "high"),
        ("stamina", .jfloat 0 (-1))]) ∧
    ∃ δ reason, (analyze_conversation (fun _ _ =>
        "\x7b\"stat_changes\": \x7b\"charisma\": 999, \"luck\": \"high\", \"stamina\": 0.0\x7d, \"reason\": \"r\"\x7d")
        "u" "b" ⟨1, ⟨0, 0, 0, 0, 0⟩⟩ none).result = .ok (δ, reason) ∧
      ∀ kv : String × JValue, kv ∈ δ ↔
        (kv ∈ [("charisma", JValue.jint 999), ("luck", JValue.jstr "high"),
          ("stamina", JValue.jfloat 0 (-1))] ∧ pyNeZero kv.2 = true) :=
  ⟨rfl, rfl,
   analyze_no_key_or_range_validation (fun _ _ =>
      "\x7b\"stat_changes\": \x7b\"charisma\": 999, \"luck\": \"high\", \"stamina\": 0.0\x7d, \"reason\": \"r\"\x7d")
    "u" "b" ⟨1, ⟨0, 0, 0, 0, 0⟩⟩ none
    [("stat_changes", .jobj [("charisma", .jint 999), ("luck", .jstr "high"),
        ("stamina", .jfloat 0 (-1))]), ("reason", .jstr "r")]
    [("charisma", .jint 999), ("luck", .jstr "high"),
      ("stamina", .jfloat 0 (-1))] rfl rfl⟩
